import Mathlib

/-!
Shallow embedding of the osmium packed-entity core
(`include/osmium/osm/object.hpp`, `include/osmium/osm/dump.hpp`) and proofs
about its specified behaviour.

The C++ `osmium::Object` stores its fixed metadata fields directly; the
version number and the deleted flag share one machine word
(`m_deleted_and_version` of type `object_version_type`).  We embed the fixed
fields as a Lean structure, machine words as `Nat` with explicit masking,
signed quantities as `Int`, and throwing setters as `Except ParseError _`.
-/

namespace osmium

/-- Modelled from the spec: `object_version_type` is a fixed-width unsigned
integer type whose top bit is the deleted flag ("version occupies all bits
except the top bit"); its definition (`osm/types.hpp`) is not part of the
sources, so we fix the conventional 32-bit width.  All bit-manipulation
claims only concern the top bit versus the rest. -/
def version_type_bits : Nat := 32

/-- Embeds `static constexpr int deleted_bit = sizeof(object_version_type) * 8 - 1`. -/
def deleted_bit : Nat := version_type_bits - 1

/-- Embeds `static constexpr object_version_type deleted_bit_mask = 1 << deleted_bit`. -/
def deleted_bit_mask : Nat := 1 <<< deleted_bit

/-- Embeds the C++ expression `~deleted_bit_mask`: bitwise complement over the
32-bit word, i.e. all bits of the word except the top one. -/
def not_deleted_bit_mask : Nat := (2 ^ version_type_bits - 1) - deleted_bit_mask

/-- Embeds the error taxonomy's `ParseError` (a malformed textual attribute
value).  The C++ code raises it as a `std::runtime_error` with a message. -/
structure ParseError where
  msg : String
deriving Repr, DecidableEq

/-- Embeds the fixed fields of `osmium::Object`: identifier, combined
deleted+version word, timestamp, user id, changeset id (object.hpp lines
52-56).  The variable-length tail (user name, sub-items) is modelled
separately where a claim needs it. -/
structure Object where
  m_id : Int
  m_deleted_and_version : Nat
  m_timestamp : Int
  m_uid : Nat
  m_changeset : Nat
deriving Repr, DecidableEq

/-- Embeds the default constructor `Object()`: all fields zero. -/
def Object.init : Object := ⟨0, 0, 0, 0, 0⟩

/-- Embeds the getter `object_version_type version() const`:
`m_deleted_and_version & (~deleted_bit_mask)`. -/
def Object.version (o : Object) : Nat :=
  o.m_deleted_and_version &&& not_deleted_bit_mask

/-- Embeds the getter `bool deleted() const`:
`m_deleted_and_version & deleted_bit_mask` converted to `bool`. -/
def Object.deleted (o : Object) : Bool :=
  o.m_deleted_and_version &&& deleted_bit_mask != 0

/-- Embeds the getter `bool visible() const`: `!deleted()`. -/
def Object.visible (o : Object) : Bool :=
  !o.deleted

/-- Embeds the setter `Object& version(object_version_type version)`:
`m_deleted_and_version = (m_deleted_and_version & deleted_bit_mask) | (version & (~deleted_bit_mask))`. -/
def Object.set_version (o : Object) (version : Nat) : Object :=
  { o with m_deleted_and_version :=
      (o.m_deleted_and_version &&& deleted_bit_mask) ||| (version &&& not_deleted_bit_mask) }

/-- Embeds the setter `Object& deleted(bool deleted)`:
`m_deleted_and_version = (m_deleted_and_version & (~deleted_bit_mask)) | ((deleted ? 1 : 0) << deleted_bit)`. -/
def Object.set_deleted (o : Object) (deleted : Bool) : Object :=
  { o with m_deleted_and_version :=
      (o.m_deleted_and_version &&& not_deleted_bit_mask) |||
        ((if deleted then 1 else 0) <<< deleted_bit) }

/-- Embeds the setter `Object& visible(bool visible)`:
`m_deleted_and_version = (m_deleted_and_version & (~deleted_bit_mask)) | ((visible ? 0 : 1) << deleted_bit)`. -/
def Object.set_visible (o : Object) (visible : Bool) : Object :=
  { o with m_deleted_and_version :=
      (o.m_deleted_and_version &&& not_deleted_bit_mask) |||
        ((if visible then 0 else 1) <<< deleted_bit) }

lemma deleted_bit_mask_eq : deleted_bit_mask = 2 ^ 31 := by decide

lemma not_deleted_bit_mask_eq : not_deleted_bit_mask = 2 ^ 31 - 1 := by decide

/-- Writing the low bits leaves the masked high bit readable unchanged:
the combined-word update of `version(v)` preserves the `deleted_bit_mask`
portion of the word. -/
lemma and_or_low_and_high (m v : Nat) :
    ((m &&& 2 ^ 31) ||| (v &&& (2 ^ 31 - 1))) &&& 2 ^ 31 = m &&& 2 ^ 31 := by
  apply Nat.eq_of_testBit_eq
  intro i
  simp only [Nat.testBit_and, Nat.testBit_or, Nat.testBit_two_pow,
    Nat.testBit_two_pow_sub_one]
  by_cases h : 31 = i
  · subst h
    simp
  · simp [h]

/-- Writing the low bits makes the low-mask portion of the word equal to the
masked input, regardless of the preserved high bit. -/
lemma and_or_low_and_low (m v : Nat) :
    ((m &&& 2 ^ 31) ||| (v &&& (2 ^ 31 - 1))) &&& (2 ^ 31 - 1) = v &&& (2 ^ 31 - 1) := by
  apply Nat.eq_of_testBit_eq
  intro i
  simp only [Nat.testBit_and, Nat.testBit_or, Nat.testBit_two_pow,
    Nat.testBit_two_pow_sub_one]
  by_cases h : i < 31
  · have h31 : ¬(31 = i) := by omega
    simp [h, h31]
  · simp [h]

/-- Writing any value shifted into the top bit leaves the low-mask portion of
the word unchanged. -/
lemma or_shifted_and_low (m c : Nat) :
    ((m &&& (2 ^ 31 - 1)) ||| (c <<< 31)) &&& (2 ^ 31 - 1) = m &&& (2 ^ 31 - 1) := by
  apply Nat.eq_of_testBit_eq
  intro i
  simp only [Nat.testBit_and, Nat.testBit_or, Nat.testBit_shiftLeft,
    Nat.testBit_two_pow_sub_one]
  by_cases h : i < 31
  · have h31 : ¬(31 ≤ i) := by omega
    simp [h, h31]
  · simp [h]

/-- C1: for every Object state and every in-range version value (top bit
clear), `version(v)` makes `version()` return `v` and leaves `deleted()`
unchanged, and `deleted(b)` leaves `version()` unchanged: the version setter
preserves the deleted bit and the deleted setter preserves the version bits. -/
theorem version_deleted_frame (o : Object) (v : Nat) (h : v < 2 ^ 31) :
    (o.set_version v).version = v ∧
    (o.set_version v).deleted = o.deleted ∧
    ∀ b : Bool, (o.set_deleted b).version = o.version := by
  refine ⟨?_, ?_, ?_⟩
  · show ((o.m_deleted_and_version &&& deleted_bit_mask) |||
        (v &&& not_deleted_bit_mask)) &&& not_deleted_bit_mask = v
    rw [deleted_bit_mask_eq, not_deleted_bit_mask_eq, and_or_low_and_low,
      Nat.and_pow_two_sub_one_eq_mod, Nat.mod_eq_of_lt h]
  · show (((o.m_deleted_and_version &&& deleted_bit_mask) |||
        (v &&& not_deleted_bit_mask)) &&& deleted_bit_mask != 0) =
      (o.m_deleted_and_version &&& deleted_bit_mask != 0)
    rw [deleted_bit_mask_eq, not_deleted_bit_mask_eq, and_or_low_and_high]
  · intro b
    show ((o.m_deleted_and_version &&& not_deleted_bit_mask) |||
        ((if b then 1 else 0) <<< deleted_bit)) &&& not_deleted_bit_mask =
      o.m_deleted_and_version &&& not_deleted_bit_mask
    rw [not_deleted_bit_mask_eq]
    exact or_shifted_and_low _ _

/-- Witness for C1 at a concrete state: starting from the deleted state with
version 9, setting version 5 yields version 5 with the deleted bit intact,
and flipping the deleted bit keeps version 5. -/
theorem version_deleted_frame_witness :
    ((Object.init.set_deleted true).set_version 5).version = 5 ∧
    ((Object.init.set_deleted true).set_version 5).deleted =
      (Object.init.set_deleted true).deleted ∧
    ∀ b : Bool,
      (((Object.init.set_deleted true).set_version 5).set_deleted b).version =
        ((Object.init.set_deleted true).set_version 5).version := by
  have h0 := version_deleted_frame (Object.init.set_deleted true) 5 (by decide)
  exact ⟨h0.1, h0.2.1, fun b => (version_deleted_frame
    ((Object.init.set_deleted true).set_version 5) 5 (by decide)).2.2 b⟩

/-- C2: `visible(true)` produces exactly the state of `deleted(false)` and
`visible(false)` that of `deleted(true)`, and the getter `visible()` is the
negation of `deleted()` — both read the same stored bit. -/
theorem visible_deleted_same_bit (o : Object) :
    o.set_visible true = o.set_deleted false ∧
    o.set_visible false = o.set_deleted true ∧
    o.visible = !o.deleted :=
  ⟨rfl, rfl, rfl⟩

/-- C10: for every input value, in range or not, the version setter stores
the input reduced modulo 2^31 (top bit of the input masked off), so the
stored version is the input with the top bit cleared and a version write can
never touch the deleted flag. -/
theorem version_set_masks_top_bit (o : Object) (v : Nat) :
    (o.set_version v).version = v % 2 ^ 31 ∧
    (o.set_version v).deleted = o.deleted := by
  constructor
  · show ((o.m_deleted_and_version &&& deleted_bit_mask) |||
        (v &&& not_deleted_bit_mask)) &&& not_deleted_bit_mask = v % 2 ^ 31
    rw [deleted_bit_mask_eq, not_deleted_bit_mask_eq, and_or_low_and_low,
      Nat.and_pow_two_sub_one_eq_mod]
  · show (((o.m_deleted_and_version &&& deleted_bit_mask) |||
        (v &&& not_deleted_bit_mask)) &&& deleted_bit_mask != 0) =
      (o.m_deleted_and_version &&& deleted_bit_mask != 0)
    rw [deleted_bit_mask_eq, not_deleted_bit_mask_eq, and_or_low_and_high]

/-- Embeds the getter `object_id_type id() const`. -/
def Object.id (o : Object) : Int :=
  o.m_id

/-- Embeds the setter `Object& id(object_id_type id)`. -/
def Object.set_id (o : Object) (id : Int) : Object :=
  { o with m_id := id }

/-- Embeds the getter `changeset_id_type changeset() const`. -/
def Object.changeset (o : Object) : Nat :=
  o.m_changeset

/-- Embeds the setter `Object& changeset(changeset_id_type changeset)`. -/
def Object.set_changeset (o : Object) (changeset : Nat) : Object :=
  { o with m_changeset := changeset }

/-- Embeds the getter `user_id_type uid() const`. -/
def Object.uid (o : Object) : Nat :=
  o.m_uid

/-- Embeds the setter `Object& uid(user_id_type uid)`. -/
def Object.set_uid (o : Object) (uid : Nat) : Object :=
  { o with m_uid := uid }

/-- Embeds `Object& uid_from_signed(int32_t uid)`:
`m_uid = uid < 0 ? 0 : uid`. -/
def Object.uid_from_signed (o : Object) (uid : Int) : Object :=
  { o with m_uid := if uid < 0 then 0 else uid.toNat }

/-- Embeds the getter `time_t timestamp() const`. -/
def Object.timestamp (o : Object) : Int :=
  o.m_timestamp

/-- Embeds the setter `Object& timestamp(time_t timestamp)`. -/
def Object.set_timestamp (o : Object) (timestamp : Int) : Object :=
  { o with m_timestamp := timestamp }

/-- C7: `uid_from_signed` never fails and clamps: for every signed 32-bit
input, the stored uid is 0 when the input is negative and the input itself
otherwise; in particular `uid_from_signed(-5)` gives `uid() == 0` and
`uid_from_signed(5)` gives `uid() == 5`. -/
theorem uid_from_signed_clamps (o : Object) (v : Int)
    (h : -(2 ^ 31) ≤ v ∧ v < 2 ^ 31) :
    ((o.uid_from_signed v).uid : Int) = (if v < 0 then 0 else v) ∧
    (o.uid_from_signed (-5)).uid = 0 ∧
    (o.uid_from_signed 5).uid = 5 := by
  refine ⟨?_, rfl, rfl⟩
  by_cases hv : v < 0
  · simp [Object.uid_from_signed, Object.uid, hv]
  · have hv2 : 0 ≤ v := by omega
    simp [Object.uid_from_signed, Object.uid, hv, Int.toNat_of_nonneg hv2]

/-- Witness for C7 at the concrete inputs named by the spec. -/
theorem uid_from_signed_clamps_witness :
    ((Object.init.uid_from_signed (-5)).uid : Int) = (if (-5 : Int) < 0 then 0 else -5) ∧
    (Object.init.uid_from_signed (-5)).uid = 0 ∧
    (Object.init.uid_from_signed 5).uid = 5 :=
  uid_from_signed_clamps Object.init (-5) (by constructor <;> decide)

/-- Embeds `inline bool operator<(const Object& lhs, const Object& rhs)`
(object.hpp line 300):
`(lhs.id() == rhs.id() && lhs.version() < rhs.version()) || abs(lhs.id()) < abs(rhs.id())`. -/
def object_less (lhs rhs : Object) : Bool :=
  (lhs.id == rhs.id && decide (lhs.version < rhs.version)) ||
    decide (lhs.id.natAbs < rhs.id.natAbs)

/-- C4: the ordering holds iff `(a.id == b.id && a.version < b.version) ||
abs(a.id) < abs(b.id)`; with equal id 5 it orders version-ascending, id -5 is
less than id 6, and id 5 versus id -5 (equal absolute value, different
versions) are mutually incomparable. -/
theorem object_less_spec :
    (∀ a b : Object, object_less a b = true ↔
      ((a.id = b.id ∧ a.version < b.version) ∨ a.id.natAbs < b.id.natAbs)) ∧
    object_less ((Object.init.set_id 5).set_version 1)
      ((Object.init.set_id 5).set_version 2) = true ∧
    object_less (Object.init.set_id (-5)) (Object.init.set_id 6) = true ∧
    object_less ((Object.init.set_id 5).set_version 1)
      ((Object.init.set_id (-5)).set_version 2) = false ∧
    object_less ((Object.init.set_id (-5)).set_version 2)
      ((Object.init.set_id 5).set_version 1) = false := by
  refine ⟨?_, by decide, by decide, by decide, by decide⟩
  intro a b
  simp [object_less]

/-- Modelled from the spec: `string_to_object_id` (declared in
`osm/types.hpp`, not part of the sources) parses a signed decimal identifier
and fails with `ParseError` on non-numeric input. -/
def string_to_object_id (s : String) : Except ParseError Int :=
  match s.toInt? with
  | some n => .ok n
  | none => .error ⟨"malformed id value"⟩

/-- Modelled from the spec: `string_to_object_version` parses an unsigned
decimal version and fails with `ParseError` on non-numeric input. -/
def string_to_object_version (s : String) : Except ParseError Nat :=
  match s.toNat? with
  | some n => .ok n
  | none => .error ⟨"malformed version value"⟩

/-- Modelled from the spec: `string_to_changeset_id` parses an unsigned
decimal changeset identifier and fails with `ParseError` on non-numeric
input. -/
def string_to_changeset_id (s : String) : Except ParseError Nat :=
  match s.toNat? with
  | some n => .ok n
  | none => .error ⟨"malformed changeset value"⟩

/-- Modelled from the spec: `string_to_user_id` parses an unsigned decimal
user identifier and fails with `ParseError` on non-numeric input. -/
def string_to_user_id (s : String) : Except ParseError Nat :=
  match s.toNat? with
  | some n => .ok n
  | none => .error ⟨"malformed uid value"⟩

/-- Modelled from the spec: `osmium::timestamp::parse_iso` parses a textual
timestamp to seconds since epoch and fails with `ParseError` otherwise; the
exact ISO-8601-like textual format is an external collaborator's concern, so
it is modelled as decimal seconds. -/
def parse_iso (s : String) : Except ParseError Int :=
  match s.toInt? with
  | some n => .ok n
  | none => .error ⟨"malformed timestamp value"⟩

/-- Embeds `Object& id(const char* id)`: parse, then the typed setter. -/
def Object.id_str (o : Object) (s : String) : Except ParseError Object :=
  (string_to_object_id s).map o.set_id

/-- Embeds `Object& version(const char* version)`: parse, then the typed
setter. -/
def Object.version_str (o : Object) (s : String) : Except ParseError Object :=
  (string_to_object_version s).map o.set_version

/-- Embeds `Object& changeset(const char* changeset)`: parse, then the typed
setter. -/
def Object.changeset_str (o : Object) (s : String) : Except ParseError Object :=
  (string_to_changeset_id s).map o.set_changeset

/-- Embeds `Object& uid(const char* uid)`: parse, then the typed setter. -/
def Object.uid_str (o : Object) (s : String) : Except ParseError Object :=
  (string_to_user_id s).map o.set_uid

/-- Embeds `Object& timestamp(const char* timestamp)`: parse, then store. -/
def Object.timestamp_str (o : Object) (s : String) : Except ParseError Object :=
  (parse_iso s).map o.set_timestamp

/-- Embeds `Object& visible(const char* visible)` (object.hpp lines 165-174):
`strcmp` against `"true"` then `"false"`, otherwise a thrown error; the
throwing path returns no modified state. -/
def Object.visible_str (o : Object) (s : String) : Except ParseError Object :=
  if s = "true" then .ok (o.set_visible true)
  else if s = "false" then .ok (o.set_visible false)
  else .error ⟨"unknown value for visible attribute"⟩

/-- C3: the textual `visible` setter succeeds exactly on `"true"` and
`"false"`, setting the flag accordingly; on any other string it surfaces a
`ParseError` to the caller and yields no modified state (nothing is silently
defaulted). -/
theorem visible_str_spec (o : Object) (s : String) :
    ((∃ o2, o.visible_str s = .ok o2) ↔ (s = "true" ∨ s = "false")) ∧
    o.visible_str "true" = .ok (o.set_visible true) ∧
    o.visible_str "false" = .ok (o.set_visible false) ∧
    (s ≠ "true" → s ≠ "false" →
      o.visible_str s = .error ⟨"unknown value for visible attribute"⟩) := by
  refine ⟨?_, rfl, rfl, ?_⟩
  · by_cases h1 : s = "true"
    · simp [Object.visible_str, h1]
    · by_cases h2 : s = "false" <;> simp [Object.visible_str, h1, h2]
  · intro h1 h2
    simp [Object.visible_str, h1, h2]

/-- Witness for C3 at concrete strings: the rejected string yields exactly
the ParseError and the accepted strings set the flag. -/
theorem visible_str_spec_witness :
    Object.init.visible_str "true" = .ok (Object.init.set_visible true) ∧
    Object.init.visible_str "maybe" =
      .error ⟨"unknown value for visible attribute"⟩ :=
  ⟨(visible_str_spec Object.init "maybe").2.1,
    (visible_str_spec Object.init "maybe").2.2.2 (by decide) (by decide)⟩

/-- Embeds `void set_attribute(const char* attr, const char* value)`
(object.hpp lines 247-261): an `strcmp` chain over the six recognized
attribute names; an unrecognized name falls through with no effect. -/
def Object.set_attribute (o : Object) (attr value : String) :
    Except ParseError Object :=
  if attr = "id" then o.id_str value
  else if attr = "version" then o.version_str value
  else if attr = "changeset" then o.changeset_str value
  else if attr = "timestamp" then o.timestamp_str value
  else if attr = "uid" then o.uid_str value
  else if attr = "visible" then o.visible_str value
  else .ok o

/-- C6: `set_attribute` dispatches to the matching typed setter for each of
exactly {id, version, changeset, timestamp, uid, visible}, and for any name
outside this set it returns with the Object completely unchanged — silently
ignored, never an error. -/
theorem set_attribute_spec (o : Object) (attr value : String) :
    (attr ∉ ["id", "version", "changeset", "timestamp", "uid", "visible"] →
      o.set_attribute attr value = .ok o) ∧
    o.set_attribute "id" value = o.id_str value ∧
    o.set_attribute "version" value = o.version_str value ∧
    o.set_attribute "changeset" value = o.changeset_str value ∧
    o.set_attribute "timestamp" value = o.timestamp_str value ∧
    o.set_attribute "uid" value = o.uid_str value ∧
    o.set_attribute "visible" value = o.visible_str value := by
  refine ⟨?_, rfl, rfl, rfl, rfl, rfl, rfl⟩
  intro h
  simp only [List.mem_cons, List.not_mem_nil, or_false] at h
  push_neg at h
  obtain ⟨h1, h2, h3, h4, h5, h6⟩ := h
  simp [Object.set_attribute, h1, h2, h3, h4, h5, h6]

/-- Witness for C6: an unrecognized attribute name leaves the object
untouched. -/
theorem set_attribute_spec_witness :
    Object.init.set_attribute "color" "7" = .ok Object.init :=
  (set_attribute_spec Object.init "color" "7").1 (by decide)

/-- Modelled from the spec: the closed set of runtime type tags (`item_type`
in `osm/types.hpp`, not part of the sources) distinguishing the concrete
record types {Node, Way, Relation, TagList, WayNodeList,
RelationMemberList}. -/
inductive ItemTag where
  | nodeT
  | wayT
  | relationT
  | tagListT
  | wayNodeListT
  | relationMemberListT
deriving Repr, DecidableEq

/-- Modelled from the spec: a TagList is an ordered sequence of (key, value)
string pairs; its class (`osm/tag.hpp`) is not part of the sources.  A
default-constructed TagList holds no tags. -/
abbrev TagList := List (String × String)

/-- Modelled from the spec: a WayNodeList entry is a node reference with an
optionally resolved location whose definedness is testable
(`wn.location().defined()` in dump.hpp line 148). -/
structure WayNode where
  ref : Int
  loc_defined : Bool
deriving Repr, DecidableEq

mutual

/-- Embeds the entity layer: an Object's fixed fields followed by its nested
sub-item region, as one of the three concrete entity types Node, Way,
Relation.  The sub-items are stored in sequence and are traversed in stored
order. -/
inductive OSMEntity where
  | node : Object → List SubItem → OSMEntity
  | way : Object → List SubItem → OSMEntity
  | relation : Object → List SubItem → OSMEntity

/-- Embeds a nested sub-item of an Object: each carries its runtime type tag
(via its constructor) and its payload. -/
inductive SubItem where
  | tagList : TagList → SubItem
  | wayNodeList : List WayNode → SubItem
  | relationMemberList : List RelMember → SubItem

/-- Modelled from the spec: a RelationMemberList entry
`{member_type, ref, role, resolved_object: optional}`; the member class is
not part of the sources.  The resolved object is present only when an
enrichment step attached it (`basic` = absent, `full` = present). -/
inductive RelMember where
  | basic : ItemTag → Int → String → RelMember
  | full : ItemTag → Int → String → OSMEntity → RelMember

end

/-- Embeds the runtime type tag read `it->type()` for a sub-item. -/
def SubItem.itemtype : SubItem → ItemTag
  | .tagList _ => ItemTag.tagListT
  | .wayNodeList _ => ItemTag.wayNodeListT
  | .relationMemberList _ => ItemTag.relationMemberListT

/-- Embeds the `reinterpret_cast<T&>(*it)` step of
`Object::subitem_of_type<TagList>` — valid exactly when the item's type tag
is the TagList tag, which in this embedding means the payload is a TagList. -/
def SubItem.as_tagList : SubItem → TagList
  | .tagList kvs => kvs
  | .wayNodeList _ => []
  | .relationMemberList _ => []

/-- Embeds `Object::subitem_of_type<TagList>` (object.hpp lines 87-97): scan
the sub-items in order, returning the first whose type tag matches; when the
loop finds none, return the function-local static default-constructed
TagList, which holds no tags. -/
def subitem_of_type_TagList : List SubItem → TagList
  | [] => []
  | it :: rest =>
    if it.itemtype = ItemTag.tagListT then it.as_tagList
    else subitem_of_type_TagList rest

/-- Embeds `TagList& Object::tags()` (object.hpp lines 234-236), applied to
the Object's nested sub-item region. -/
def tags (subs : List SubItem) : TagList :=
  subitem_of_type_TagList subs

/-- C5: `tags()` scans the sub-item sequence in order and returns the first
sub-item carrying the TagList type tag; when no sub-item has that tag it
returns a well-defined empty TagList instead of failing. -/
theorem tags_first_match (subs : List SubItem) :
    ((∀ it ∈ subs, it.itemtype ≠ ItemTag.tagListT) → tags subs = []) ∧
    (∀ pre kvs post, subs = pre ++ SubItem.tagList kvs :: post →
      (∀ it ∈ pre, it.itemtype ≠ ItemTag.tagListT) → tags subs = kvs) := by
  induction subs with
  | nil =>
    refine ⟨fun _ => rfl, ?_⟩
    intro pre kvs post heq
    exact absurd heq (by simp)
  | cons s rest ih =>
    constructor
    · intro h
      have hs := h s (List.mem_cons_self s rest)
      have : tags (s :: rest) = tags rest := by
        simp [tags, subitem_of_type_TagList, hs]
      rw [this]
      exact ih.1 fun it hit => h it (List.mem_cons_of_mem s hit)
    · intro pre kvs post heq hpre
      cases pre with
      | nil =>
        simp only [List.nil_append] at heq
        rw [heq]
        simp [tags, subitem_of_type_TagList, SubItem.itemtype, SubItem.as_tagList]
      | cons p ps =>
        simp only [List.cons_append, List.cons.injEq] at heq
        obtain ⟨hsp, hrest⟩ := heq
        have hptag : p.itemtype ≠ ItemTag.tagListT :=
          hpre p (List.mem_cons_self p ps)
        have : tags (s :: rest) = tags rest := by
          simp [tags, subitem_of_type_TagList, hsp ▸ hptag]
        rw [this]
        exact ih.2 ps kvs post hrest
          fun it hit => hpre it (List.mem_cons_of_mem p hit)

/-- Witness for C5: with a WayNodeList first and two TagLists present, the
scan returns the first TagList; with no TagList present, the scan returns
the empty TagList. -/
theorem tags_first_match_witness :
    tags [SubItem.wayNodeList [⟨1, false⟩],
          SubItem.tagList [("highway", "residential")],
          SubItem.tagList [("name", "Main St")]] = [("highway", "residential")] ∧
    tags [SubItem.wayNodeList [⟨1, false⟩]] = [] :=
  ⟨(tags_first_match _).2 [SubItem.wayNodeList [⟨1, false⟩]]
      [("highway", "residential")] [SubItem.tagList [("name", "Main St")]] rfl
      (by decide),
    (tags_first_match [SubItem.wayNodeList [⟨1, false⟩]]).1 (by decide)⟩

mutual

/-- Embeds applying the Dump handler set to an entity, recording the order
of visited type tags: `Dump::operator()` for Node/Way/Relation (dump.hpp
lines 174-188) prints the entity's own title first, then `print_meta`
(lines 70-102) prints the fixed fields and ends by applying a nested Dump
visitor over the entity's sub-item range `cbegin()..cend()`.
`apply_visitor` itself (`osm/visitor.hpp`) is not part of the sources and is
modelled from the spec: it invokes the handler matching each item's runtime
type tag, over the range in order. -/
def dumpEntity : OSMEntity → List ItemTag
  | .node _ subs => ItemTag.nodeT :: dumpSubItems subs
  | .way _ subs => ItemTag.wayT :: dumpSubItems subs
  | .relation _ subs => ItemTag.relationT :: dumpSubItems subs

/-- Embeds the visitor pass over a sub-item range in stored order. -/
def dumpSubItems : List SubItem → List ItemTag
  | [] => []
  | s :: rest => dumpSubItem s ++ dumpSubItems rest

/-- Embeds the Dump handlers for the three sub-collection types (dump.hpp
lines 129-172): each prints its own title; a RelationMemberList additionally
walks its members. -/
def dumpSubItem : SubItem → List ItemTag
  | .tagList _ => [ItemTag.tagListT]
  | .wayNodeList _ => [ItemTag.wayNodeListT]
  | .relationMemberList ms => ItemTag.relationMemberListT :: dumpMembers ms

/-- Embeds the member loop of `Dump::operator()(const RelationMemberList&)`
in stored order. -/
def dumpMembers : List RelMember → List ItemTag
  | [] => []
  | m :: rest => dumpMemberVisits m ++ dumpMembers rest

/-- Embeds the recursive part of one member iteration (dump.hpp lines
167-170): only when `member.full_member()` holds is the visitor applied to
`member.get_object()`. -/
def dumpMemberVisits : RelMember → List ItemTag
  | .basic _ _ _ => []
  | .full _ _ _ o => dumpEntity o

end

/-- C8: applying the Dump handler set to an Object visits the Object first
and then its nested sub-items, in their stored order; for a Way with one
TagList and one WayNodeList the visit order is the Way followed by its two
sub-items in the order they are stored. -/
theorem dump_dispatch_order (meta : Object) (subs : List SubItem)
    (tl : TagList) (wnl : List WayNode) :
    dumpEntity (.way meta subs) = ItemTag.wayT :: dumpSubItems subs ∧
    dumpEntity (.way meta [SubItem.tagList tl, SubItem.wayNodeList wnl]) =
      [ItemTag.wayT, ItemTag.tagListT, ItemTag.wayNodeListT] ∧
    dumpEntity (.way meta [SubItem.wayNodeList wnl, SubItem.tagList tl]) =
      [ItemTag.wayT, ItemTag.wayNodeListT, ItemTag.tagListT] := by
  refine ⟨?_, ?_, ?_⟩ <;> simp [dumpEntity, dumpSubItems, dumpSubItem]

/-- Embeds `RelationMember::full_member()`: whether the member's resolved
object is present (modelled from the spec; the member class is not part of
the sources). -/
def RelMember.full_member : RelMember → Bool
  | .basic _ _ _ => false
  | .full _ _ _ _ => true

/-- Embeds `RelationMember::get_object()`: the resolved member object, when
present (modelled from the spec). -/
def RelMember.get_object : RelMember → Option OSMEntity
  | .basic _ _ _ => none
  | .full _ _ _ o => some o

/-- Embeds `RelationMember::type()`. -/
def RelMember.mtype : RelMember → ItemTag
  | .basic t _ _ => t
  | .full t _ _ _ => t

/-- Embeds `RelationMember::ref()`. -/
def RelMember.mref : RelMember → Int
  | .basic _ r _ => r
  | .full _ r _ _ => r

/-- Embeds `RelationMember::role()`. -/
def RelMember.mrole : RelMember → String
  | .basic _ _ ro => ro
  | .full _ _ ro _ => ro

/-- Events of one member iteration in
`Dump::operator()(const RelationMemberList&)`: the printed member line, and
the type tags visited by recursing into a resolved member object. -/
inductive MemberEvent where
  | line (mtype : ItemTag) (ref : Int) (role : String)
  | visit (tag : ItemTag)
deriving Repr, DecidableEq

/-- Tests whether an event is a recursive visit into a member's object. -/
def MemberEvent.isVisit : MemberEvent → Bool
  | .line _ _ _ => false
  | .visit _ => true

/-- Embeds one iteration of the member loop (dump.hpp lines 158-171): print
the member's type/ref/role line, then — only if `full_member()` — apply a
nested Dump visitor to `get_object()`. -/
def dumpMemberEvents : RelMember → List MemberEvent
  | .basic t r ro => [MemberEvent.line t r ro]
  | .full t r ro o => MemberEvent.line t r ro :: (dumpEntity o).map MemberEvent.visit

lemma dumpEntity_ne_nil (o : OSMEntity) : dumpEntity o ≠ [] := by
  cases o <;> simp [dumpEntity]

/-- C9: the member loop recurses into a member's resolved object exactly
when `full_member()` reports it present; a member whose resolved object is
absent is printed as its line alone, with no access to any object. -/
theorem dump_member_guard (m : RelMember) :
    ((∃ e ∈ dumpMemberEvents m, e.isVisit = true) ↔ m.full_member = true) ∧
    (m.full_member = false →
      dumpMemberEvents m = [MemberEvent.line m.mtype m.mref m.mrole]) ∧
    (∀ o, m.get_object = some o →
      dumpMemberEvents m = MemberEvent.line m.mtype m.mref m.mrole ::
        (dumpEntity o).map MemberEvent.visit) := by
  cases m with
  | basic t r ro =>
    refine ⟨?_, fun _ => rfl, ?_⟩
    · simp [dumpMemberEvents, RelMember.full_member, MemberEvent.isVisit]
    · intro o ho
      exact absurd ho (by simp [RelMember.get_object])
  | full t r ro o =>
    refine ⟨?_, ?_, ?_⟩
    · simp only [RelMember.full_member, iff_true]
      cases h : dumpEntity o with
      | nil => exact absurd h (dumpEntity_ne_nil o)
      | cons a as =>
        exact ⟨MemberEvent.visit a, by simp [dumpMemberEvents, h], rfl⟩
    · intro hfalse
      exact absurd hfalse (by simp [RelMember.full_member])
    · intro o2 ho2
      simp only [RelMember.get_object, Option.some.injEq] at ho2
      rw [← ho2]
      rfl

/-- Witness for C9: a member without a resolved object produces only its
printed line; a member with a resolved Node produces its line followed by
the recursive visit of that Node. -/
theorem dump_member_guard_witness :
    dumpMemberEvents (RelMember.basic ItemTag.nodeT 3 "outer") =
      [MemberEvent.line ItemTag.nodeT 3 "outer"] ∧
    dumpMemberEvents (RelMember.full ItemTag.nodeT 4 "inner"
        (OSMEntity.node Object.init [])) =
      [MemberEvent.line ItemTag.nodeT 4 "inner",
        MemberEvent.visit ItemTag.nodeT] := by
  constructor
  · exact (dump_member_guard (RelMember.basic ItemTag.nodeT 3 "outer")).2.1 rfl
  · have h := (dump_member_guard (RelMember.full ItemTag.nodeT 4 "inner"
        (OSMEntity.node Object.init []))).2.2 (OSMEntity.node Object.init []) rfl
    rw [h]
    simp [dumpEntity, dumpSubItems, RelMember.mtype, RelMember.mref, RelMember.mrole]

end osmium
